import Mathlib

/-!
Verification of the crossword statistics plotting pipeline.

The development shallowly embeds the data-transformation core of
`plot/plot.py` (record filtering, time-windowed rolling averages per
weekday, quantile-based y-axis scale selection, and the write sequence of
`generate`) together with the call into it from `cloud_run.py`, and proves
or refutes the specified properties about them.

Conventions of the embedding:
* a CSV row is a `SolveRecord`; nullable cells (`solved_unix`,
  `solve_time_secs`) are `Option`s, where `none` plays the role of a
  pandas `NaN`/`NaT`;
* timestamps are integer POSIX epoch seconds, durations are rationals;
* pandas comparisons against `NaN` evaluate to `False`, which the
  embedding mirrors by explicit `Option` matches;
* `pd.Series.quantile` returns `NaN` on an empty (or all-`NaN`) series;
  the embedding returns `none` there.
-/

namespace Crossword

/-- One row of the crossword CSV, as read by `parse_data` (plot.py).
Columns: `date`, `opened_unix`, `solved_unix`, `solve_time_secs`,
`cheated`, `weekday`.  `solved_unix` and `solve_time_secs` may be null
(unsolved puzzles). -/
structure SolveRecord where
  puzzle_date : Int
  opened_unix : Int
  solved_unix : Option Int
  solve_time_secs : Option ℚ
  cheated : Bool
  weekday : String
deriving DecidableEq, Repr

/-- Seven days in seconds, the revisit cutoff `3600 * 24 * 7` of
plot.py line 66. -/
def sevenDays : Int := 3600 * 24 * 7

/-- The boolean mask of plot.py lines 65–69.  In pandas,
`df["solved_unix"] - df["opened_unix"] < 3600*24*7` is `False` whenever
`solved_unix` is `NaN` (any comparison with `NaN` is `False`), so the
mask also excludes unsolved puzzles. -/
def keepRecord (r : SolveRecord) : Bool :=
  (match r.solved_unix with
   | some s => decide (s - r.opened_unix < sevenDays)
   | none => false)
  && !r.cheated
  && r.solve_time_secs.isSome

/-- Ordering of nullable solve timestamps: `NaT` (a null solve time)
sorts after every concrete time, as pandas `sort_index` does with its
default `na_position="last"`. -/
def keyLe : Option Int → Option Int → Bool
  | some x, some y => decide (x ≤ y)
  | some _, none => true
  | none, some _ => false
  | none, none => true

theorem keyLe_total (u v : Option Int) : keyLe u v = true ∨ keyLe v u = true := by
  cases u <;> cases v <;> simp [keyLe] <;> omega

theorem keyLe_trans (u v w : Option Int) (huv : keyLe u v = true)
    (hvw : keyLe v w = true) : keyLe u w = true := by
  cases u <;> cases v <;> cases w <;> simp_all [keyLe] <;> omega

/-- Comparison used by `df.sort_index()` on the `Solved datetime` index
(plot.py lines 58–59): records are ordered by solve time. -/
def solvedLe (a b : SolveRecord) : Prop :=
  keyLe a.solved_unix b.solved_unix = true

instance : DecidableRel solvedLe := fun a b =>
  inferInstanceAs (Decidable (_ = true))

instance : IsTotal SolveRecord solvedLe where
  total a b := keyLe_total a.solved_unix b.solved_unix

instance : IsTrans SolveRecord solvedLe where
  trans a b c hab hbc := keyLe_trans _ _ _ hab hbc

/-- The function `parse_data` of plot.py (lines 42–71), after the CSV has been read
into rows: re-index by solve time, sort by that index (pandas
`sort_index` is stable), then apply the validity mask. -/
def parse_data (rows : List SolveRecord) : List SolveRecord :=
  (List.insertionSort solvedLe rows).filter keepRecord

/-- The filter mask, unfolded into the four clauses of the claim. -/
theorem keepRecord_iff (r : SolveRecord) :
    keepRecord r = true ↔
      (∃ s, r.solved_unix = some s ∧ s - r.opened_unix < sevenDays) ∧
        r.cheated = false ∧ r.solve_time_secs ≠ none := by
  unfold keepRecord
  rcases h : r.solved_unix with _ | s <;>
    simp [h, Option.isSome_iff_ne_none] <;> tauto

/-- C1: a record appears in the output of `parse_data` iff it appears in
the input and satisfies all four validity clauses: solved timestamp
non-null, not cheated, solved within 7 days (604800 s) of opening, and
non-null solve duration. -/
theorem parse_data_mem_iff (rows : List SolveRecord) (r : SolveRecord) :
    r ∈ parse_data rows ↔
      r ∈ rows ∧
        (∃ s, r.solved_unix = some s ∧ s - r.opened_unix < 604800) ∧
          r.cheated = false ∧ r.solve_time_secs ≠ none := by
  have hseven : sevenDays = 604800 := by norm_num [sevenDays]
  unfold parse_data
  rw [List.mem_filter, List.mem_insertionSort, keepRecord_iff, hseven]

/-- The output of `parse_data` is sorted by solve time. -/
theorem parse_data_sorted (rows : List SolveRecord) :
    List.Sorted solvedLe (parse_data rows) :=
  List.Pairwise.sublist (List.filter_sublist _)
    (List.sorted_insertionSort solvedLe rows)

/-- C9: filtering is idempotent — running `parse_data` on an
already-parsed dataset returns it unchanged (same records, same order):
the second sort is the identity on a sorted list, and the mask retains
every record it has already retained. -/
theorem parse_data_idempotent (rows : List SolveRecord) :
    parse_data (parse_data rows) = parse_data rows := by
  have hsorted : List.Sorted solvedLe (parse_data rows) := parse_data_sorted rows
  show (List.insertionSort solvedLe (parse_data rows)).filter keepRecord = parse_data rows
  rw [List.Sorted.insertionSort_eq hsorted]
  apply List.filter_eq_self.mpr
  intro a ha
  exact (List.mem_filter.mp ha).2

/-- The canonical weekday labels, `DAYS` of plot.py line 25. -/
def DAYS : List String := ["Mon", "Tue", "Wed", "Thu", "Fri", "Sat", "Sun"]

/-- The rolling window `"56D"` of plot.py line 82, in seconds. -/
def W56 : Int := 56 * 86400

/-- Arithmetic mean of a list of rationals (the empty mean, never taken
by the rolling computation, defaults to 0). -/
def mean (xs : List ℚ) : ℚ := xs.sum / xs.length

/-- The `(index, value)` series underlying a dataframe: solve timestamp
paired with `solve_time_secs`.  Rows with a null in either column carry
no point (such rows never survive `parse_data`). -/
def seriesOf (df : List SolveRecord) : List (Int × ℚ) :=
  df.filterMap fun r =>
    r.solved_unix.bind fun t => r.solve_time_secs.map fun v => (t, v)

/-- Pandas `Series.rolling("56D").mean()` on a time-sorted series:
the window of row `i` ends at row `i` itself (row positions after `i`
are never included, even at equal timestamps) and reaches back over the
rows whose timestamp `t` satisfies `tᵢ - w < t` (the left endpoint is
open, pandas `closed="right"`).  `prev` accumulates the rows before the
current one. -/
def rollingAux (w : Int) (prev : List (Int × ℚ)) : List (Int × ℚ) → List (Int × ℚ)
  | [] => []
  | p :: rest =>
      (p.1, mean (((prev ++ [p]).filter fun q => decide (p.1 - w < q.1)).map Prod.snd)) ::
        rollingAux w (prev ++ [p]) rest

/-- The rolling mean series (seconds) of plot.py line 82. -/
def rollingMean (w : Int) (s : List (Int × ℚ)) : List (Int × ℚ) :=
  rollingAux w [] s

/-- The rolling series converted to minutes, `rolling_avg / 60.0` of
plot.py line 83. -/
def rollingMinutes (w : Int) (s : List (Int × ℚ)) : List (Int × ℚ) :=
  (rollingMean w s).map fun p => (p.1, p.2 / 60)

/-- The weekday group `df[df["weekday"] == day]` of plot.py line 82, as
an `(index, value)` series. -/
def groupOf (df : List SolveRecord) (day : String) : List (Int × ℚ) :=
  seriesOf (df.filter fun r => r.weekday == day)

/-- The weekday aggregation of plot.py lines 81–85: one rolling-average
series per entry of `DAYS`, in that order, each computed from that
weekday's subset of the dataframe.  The loop runs over all seven labels
unconditionally. -/
def aggregate (df : List SolveRecord) : List (String × List (Int × ℚ)) :=
  DAYS.map fun day => (day, rollingMinutes W56 (groupOf df day))

/-- The window mean in the words of the spec: the mean of the durations
of ALL observations of the series whose timestamp lies in the half-open
trailing window `(t - w, t]`. -/
def specWindowMean (w : Int) (s : List (Int × ℚ)) (t : Int) : ℚ :=
  mean ((s.filter fun q => decide (t - w < q.1) && decide (q.1 ≤ t)).map Prod.snd)

theorem rollingAux_length (w : Int) (s : List (Int × ℚ)) :
    ∀ prev : List (Int × ℚ), (rollingAux w prev s).length = s.length := by
  induction s with
  | nil => intro prev; rfl
  | cons p rest ih =>
      intro prev
      simp only [rollingAux, List.length_cons, ih]

theorem rollingMinutes_length (w : Int) (s : List (Int × ℚ)) :
    (rollingMinutes w s).length = s.length := by
  unfold rollingMinutes rollingMean
  rw [List.length_map, rollingAux_length]

/-- Positional characterization of the rolling mean: the value at
position `i` averages the rows at positions `≤ i` whose timestamp lies
inside the trailing window of row `i`. -/
theorem rollingAux_getD (w : Int) (s : List (Int × ℚ)) :
    ∀ (prev : List (Int × ℚ)) (i : ℕ), i < s.length →
      (rollingAux w prev s).getD i (0, 0) =
        ((s.getD i (0, 0)).1,
          mean (((prev ++ s.take (i + 1)).filter
            (fun q => decide ((s.getD i (0, 0)).1 - w < q.1))).map Prod.snd)) := by
  induction s with
  | nil => intro prev i hi; simp at hi
  | cons p rest ih =>
      intro prev i hi
      cases i with
      | zero =>
          simp [rollingAux, List.getD_cons_zero]
      | succ i =>
          have hi' : i < rest.length := by simpa using hi
          simp only [rollingAux, List.getD_cons_succ, List.take_succ_cons]
          rw [ih (prev ++ [p]) i hi']
          simp [List.append_assoc]

/-- The rolling mean at position `i` of a time-sorted series, stated
over the plain list: positions after `i` never contribute. -/
theorem rollingMean_getD (w : Int) (s : List (Int × ℚ)) (i : ℕ)
    (hi : i < s.length) :
    (rollingMean w s).getD i (0, 0) =
      ((s.getD i (0, 0)).1,
        mean (((s.take (i + 1)).filter
          (fun q => decide ((s.getD i (0, 0)).1 - w < q.1))).map Prod.snd)) := by
  unfold rollingMean
  rw [rollingAux_getD w s [] i hi]
  simp

/-- On a strictly increasing series the positional window coincides with
the purely temporal window of the spec. -/
theorem take_filter_eq_window (w : Int) (s : List (Int × ℚ))
    (hs : List.Pairwise (fun p q => p.1 < q.1) s) (i : ℕ) (hi : i < s.length) :
    (s.filter fun q => decide ((s.getD i (0, 0)).1 - w < q.1)
        && decide (q.1 ≤ (s.getD i (0, 0)).1)) =
      ((s.take (i + 1)).filter
        (fun q => decide ((s.getD i (0, 0)).1 - w < q.1))) := by
  have hpair := List.pairwise_iff_getElem.mp hs
  set t : Int := (s.getD i (0, 0)).1 with htdef
  have hti : t = (s[i]).1 := by
    rw [htdef, List.getD_eq_getElem s (0, 0) hi]
  conv_lhs => rw [← List.take_append_drop (i + 1) s]
  rw [List.filter_append]
  have hdrop : ((s.drop (i + 1)).filter fun q =>
      decide (t - w < q.1) && decide (q.1 ≤ t)) = [] := by
    rw [List.filter_eq_nil_iff]
    intro a ha
    obtain ⟨j, hj, hja⟩ := List.getElem_of_mem ha
    have hlen : i + 1 + j < s.length := by
      have := hj
      simp [List.length_drop] at this
      omega
    have hja' : a = s[i + 1 + j] := by
      rw [← hja, List.getElem_drop]
    have hlt : (s[i]).1 < (s[i + 1 + j]).1 :=
      hpair i (i + 1 + j) hi hlen (by omega)
    rw [hja', hti]
    simp only [Bool.and_eq_true, decide_eq_true_eq, not_and]
    intro _
    omega
  rw [hdrop, List.append_nil]
  apply List.filter_congr
  intro a ha
  obtain ⟨j, hj, hja⟩ := List.getElem_of_mem ha
  have hjlen : j < s.length := by
    have := hj
    simp [List.length_take] at this
    omega
  have hji : j ≤ i := by
    have := hj
    simp [List.length_take] at this
    omega
  have hja' : a = s[j] := by
    rw [← hja, List.getElem_take]
  have hle : (s[j]).1 ≤ (s[i]).1 := by
    rcases lt_or_eq_of_le hji with h | h
    · exact le_of_lt (hpair j i hjlen hi h)
    · subst h; exact le_refl _
  rw [hja', hti, decide_eq_true hle, Bool.and_true]

/-- On a series with strictly increasing timestamps, the rolling value at
position `i` is the mean over the temporal window of the spec, in
minutes, paired with the timestamp of observation `i`. -/
theorem rollingMinutes_getD_spec (w : Int) (s : List (Int × ℚ))
    (hs : List.Pairwise (fun p q => p.1 < q.1) s) (i : ℕ) (hi : i < s.length) :
    (rollingMinutes w s).getD i (0, 0) =
      ((s.getD i (0, 0)).1, specWindowMean w s (s.getD i (0, 0)).1 / 60) := by
  have hlen : i < (rollingMean w s).length := by
    rw [rollingMean, rollingAux_length]; exact hi
  have hlen' : i < ((rollingMean w s).map fun p => (p.1, p.2 / 60)).length := by
    rw [List.length_map]; exact hlen
  unfold rollingMinutes
  rw [List.getD_eq_getElem _ _ hlen', List.getElem_map,
    ← List.getD_eq_getElem _ (0, 0) hlen, rollingMean_getD w s i hi]
  unfold specWindowMean
  rw [take_filter_eq_window w s hs i hi]

/-- At the first observation of a series the rolling window holds only
that observation, so the rolling value is its own duration in minutes. -/
theorem rollingMinutes_head (w : Int) (hw : 0 < w) (p : Int × ℚ)
    (rest : List (Int × ℚ)) :
    (rollingMinutes w (p :: rest)).getD 0 (0, 0) = (p.1, p.2 / 60) := by
  unfold rollingMinutes rollingMean rollingAux
  simp [mean, List.filter_cons, hw]

/-- C2 (amended): for a weekday group of the filtered dataset whose
solve timestamps are pairwise distinct (strictly increasing), the
aggregator's rolling value at each observation `i` is the mean of
`solve_time_secs` over all group observations with timestamp in the
half-open trailing window, divided by 60; and at the first (single
earliest) observation it is that observation's own duration in
minutes. -/
theorem aggregate_rolling_window_spec (rows : List SolveRecord) (day : String)
    (hs : List.Pairwise (fun p q => p.1 < q.1) (groupOf (parse_data rows) day)) :
    (∀ i, i < (groupOf (parse_data rows) day).length →
      (rollingMinutes W56 (groupOf (parse_data rows) day)).getD i (0, 0) =
        (((groupOf (parse_data rows) day).getD i (0, 0)).1,
          specWindowMean W56 (groupOf (parse_data rows) day)
            ((groupOf (parse_data rows) day).getD i (0, 0)).1 / 60)) ∧
    (∀ p rest, groupOf (parse_data rows) day = p :: rest →
      (rollingMinutes W56 (groupOf (parse_data rows) day)).getD 0 (0, 0) =
        (p.1, p.2 / 60)) := by
  constructor
  · intro i hi
    exact rollingMinutes_getD_spec W56 _ hs i hi
  · intro p rest hcons
    rw [hcons]
    exact rollingMinutes_head W56 (by norm_num [W56]) p rest

/-- Two valid records solved at the identical instant, used to exhibit
the tied-timestamp behaviour of the rolling window. -/
def tieRows : List SolveRecord :=
  [⟨0, 0, some 0, some 60, false, "Mon"⟩, ⟨0, 0, some 0, some 120, false, "Mon"⟩]

/-- C2 (counterexample): with two observations of the Monday group tied
at the same solve timestamp, the code's rolling value at the first of
them averages only that row (pandas windows end at the row position),
giving 1 minute, while the window mean over all observations with
timestamp in the trailing window — what the claim prescribes — is 1.5
minutes. -/
theorem rolling_tie_counterexample :
    groupOf (parse_data tieRows) "Mon" = [(0, 60), (0, 120)] ∧
    (rollingMinutes W56 (groupOf (parse_data tieRows) "Mon")).getD 0 (0, 0) =
      (0, 1) ∧
    specWindowMean W56 (groupOf (parse_data tieRows) "Mon") 0 / 60 = 3 / 2 ∧
    ((0 : Int), (1 : ℚ)) ≠ ((0 : Int), (3 / 2 : ℚ)) := by
  have hg : groupOf (parse_data tieRows) "Mon" = [(0, 60), (0, 120)] := by decide
  refine ⟨hg, ?_, ?_, ?_⟩
  · rw [hg]
    norm_num [rollingMinutes, rollingMean, rollingAux, mean, W56, List.filter_cons]
  · rw [hg]
    norm_num [specWindowMean, mean, W56, List.filter_cons]
  · norm_num [Prod.ext_iff]

/-- Two valid records solved one minute apart on the same weekday. -/
def wRows : List SolveRecord :=
  [⟨0, 0, some 0, some 60, false, "Mon"⟩, ⟨0, 60, some 60, some 120, false, "Mon"⟩]

/-- Witness for the amended C2 theorem at a concrete dataset with
distinct timestamps. -/
theorem aggregate_rolling_window_spec_witness :
    List.Pairwise (fun p q : Int × ℚ => p.1 < q.1)
      (groupOf (parse_data wRows) "Mon") ∧
    (rollingMinutes W56 (groupOf (parse_data wRows) "Mon")).getD 1 (0, 0) =
      (((groupOf (parse_data wRows) "Mon").getD 1 (0, 0)).1,
        specWindowMean W56 (groupOf (parse_data wRows) "Mon")
          ((groupOf (parse_data wRows) "Mon").getD 1 (0, 0)).1 / 60) :=
  ⟨by decide,
    (aggregate_rolling_window_spec wRows "Mon" (by decide)).1 1 (by decide)⟩

/-- A single valid Monday record. -/
def monRows : List SolveRecord := [⟨0, 0, some 0, some 600, false, "Mon"⟩]

/-- C7 (counterexample): the aggregation loop of plot.py lines 81–85
runs over all seven weekday labels unconditionally, so a dataset with a
single Monday observation still yields a Tuesday entry — an empty
series, not an omission. -/
theorem aggregate_empty_group_counterexample :
    ("Tue", ([] : List (Int × ℚ))) ∈ aggregate (parse_data monRows) ∧
    ∀ r ∈ parse_data monRows, r.weekday ≠ "Tue" := by
  constructor
  · have h1 : groupOf (parse_data monRows) "Tue" = [] := by decide
    have hmem := List.mem_map_of_mem
      (fun day => (day, rollingMinutes W56 (groupOf (parse_data monRows) day)))
      (show "Tue" ∈ DAYS by decide)
    simpa [aggregate, rollingMinutes, rollingMean, rollingAux, h1] using hmem
  · decide

/-- C7 (amended): the aggregator emits exactly one entry per canonical
weekday label, in the fixed order of `DAYS`, regardless of the data;
each entry's series has one point per observation of that weekday (zero
observations give an empty series, not an omitted one). -/
theorem aggregate_keys_and_lengths (df : List SolveRecord) :
    ((aggregate df).map Prod.fst = DAYS) ∧
    ∀ pr ∈ aggregate df, pr.2.length = (groupOf df pr.1).length := by
  constructor
  · rfl
  · intro pr hpr
    unfold aggregate at hpr
    obtain ⟨day, _, heq⟩ := List.mem_map.mp hpr
    rw [← heq]
    exact rollingMinutes_length W56 _

/-- Witness for the amended C7 theorem at a concrete dataset. -/
theorem aggregate_keys_and_lengths_witness :
    (("Mon", rollingMinutes W56 (groupOf monRows "Mon")) ∈ aggregate monRows) ∧
    (rollingMinutes W56 (groupOf monRows "Mon")).length =
      (groupOf monRows "Mon").length := by
  have hmem : ("Mon", rollingMinutes W56 (groupOf monRows "Mon")) ∈ aggregate monRows :=
    List.mem_map_of_mem
      (fun day => (day, rollingMinutes W56 (groupOf monRows day)))
      (show "Mon" ∈ DAYS by decide)
  exact ⟨hmem, (aggregate_keys_and_lengths monRows).2 _ hmem⟩

/-- The non-null `solve_time_secs` values of a dataframe, the series
over which `df["solve_time_secs"].quantile(0.99)` is taken (pandas
quantile skips NaN). -/
def durationsOf (df : List SolveRecord) : List ℚ :=
  df.filterMap fun r => r.solve_time_secs

/-- The linear-interpolation sample quantile on an already sorted
non-empty list: the value at fractional position `q * (n - 1)`,
interpolated between the two adjacent order statistics (numpy/pandas
`interpolation="linear"`, the default of `Series.quantile`). -/
def quantileAt (s : List ℚ) (q : ℚ) : ℚ :=
  s.getD (⌊q * ((s.length : ℚ) - 1)⌋).toNat 0
    + (q * ((s.length : ℚ) - 1) - ⌊q * ((s.length : ℚ) - 1)⌋) *
      (s.getD (min ((⌊q * ((s.length : ℚ) - 1)⌋).toNat + 1) (s.length - 1)) 0
        - s.getD (⌊q * ((s.length : ℚ) - 1)⌋).toNat 0)

/-- pandas `Series.quantile(q)`: sort the values and interpolate; on an
empty series the result is `NaN`, modelled as `none` (pandas does not
raise there). -/
def seriesQuantile (xs : List ℚ) (q : ℚ) : Option ℚ :=
  if (List.insertionSort (· ≤ ·) xs).length = 0 then none
  else some (quantileAt (List.insertionSort (· ≤ ·) xs) q)

/-- The scale selection of `generate` (plot.py lines 158–162): a ceiling
of 0 means "compute from data" (the 99th percentile of
`solve_time_secs`, converted to minutes); any other ceiling is used
verbatim.  The result is `none` exactly when the quantile is `NaN`. -/
def selectYmax (df : List SolveRecord) (ceiling : Int) : Option ℚ :=
  if ceiling = 0 then (seriesQuantile (durationsOf df) (99 / 100)).map (· / 60)
  else some (ceiling : ℚ)

/-- Outcome classification for the scale-selection step.  The
`emptyDatasetError` constructor exists only to state the spec's claim;
no code path produces it, because plot.py defines no such error and
pandas returns `NaN` on an empty quantile. -/
inductive ScaleResult where
  | ceiling (q : ℚ)
  | nanValue
  | emptyDatasetError
deriving DecidableEq, Repr

/-- What the scale-selection step of plot.py actually does, classified:
a numeric ceiling or a silent `NaN`. -/
def selectScaleResult (df : List SolveRecord) (c : Int) : ScaleResult :=
  match selectYmax df c with
  | some q => ScaleResult.ceiling q
  | none => ScaleResult.nanValue

theorem seriesQuantile_isSome (xs : List ℚ) (q : ℚ) (h : xs ≠ []) :
    (seriesQuantile xs q).isSome = true := by
  unfold seriesQuantile
  rw [if_neg]
  · rfl
  · rw [List.length_insertionSort]
    simpa using h

/-- C3 (counterexample): on the empty dataset with no override, the
scale selection of plot.py returns the quantile of an empty series —
`NaN` — rather than failing with an `EmptyDatasetError`; no such error
exists in the code. -/
theorem scale_empty_counterexample :
    selectScaleResult [] 0 = ScaleResult.nanValue ∧
    selectScaleResult [] 0 ≠ ScaleResult.emptyDatasetError ∧
    ∀ q : ℚ, selectScaleResult [] 0 ≠ ScaleResult.ceiling q := by
  refine ⟨rfl, by decide, ?_⟩
  intro q h
  rw [show selectScaleResult [] 0 = ScaleResult.nanValue from rfl] at h
  exact ScaleResult.noConfusion h

/-- C3 (amended): whenever the dataset contributes no duration values
(in particular when it has zero records) and no override is given, the
scale selection silently yields `NaN` — not an error and not a numeric
ceiling. -/
theorem scale_empty_returns_nan (df : List SolveRecord)
    (h : durationsOf df = []) :
    selectScaleResult df 0 = ScaleResult.nanValue ∧
    ∀ q : ℚ, selectScaleResult df 0 ≠ ScaleResult.ceiling q := by
  have hy : selectYmax df 0 = none := by
    unfold selectYmax
    rw [if_pos rfl, h]
    rfl
  unfold selectScaleResult
  rw [hy]
  exact ⟨rfl, fun q h => ScaleResult.noConfusion h⟩

/-- Witness for the amended C3 theorem at the empty dataset. -/
theorem scale_empty_returns_nan_witness :
    durationsOf [] = [] ∧ selectScaleResult [] 0 = ScaleResult.nanValue :=
  ⟨rfl, (scale_empty_returns_nan [] rfl).1⟩

/-- C8: a non-zero (in particular any positive) ceiling override is
returned verbatim, and the dataset plays no part in the result. -/
theorem selectYmax_override (df df2 : List SolveRecord) (c : Int) (hc : 0 < c) :
    selectYmax df c = some (c : ℚ) ∧ selectYmax df c = selectYmax df2 c := by
  unfold selectYmax
  rw [if_neg (by omega), if_neg (by omega)]
  exact ⟨rfl, rfl⟩

/-- Witness for C8 at ceiling 30, comparing the empty dataset with a
one-record dataset. -/
theorem selectYmax_override_witness :
    (0 : Int) < 30 ∧
      (selectYmax [] 30 = some ((30 : Int) : ℚ) ∧
        selectYmax [] 30 =
          selectYmax [⟨0, 0, some 0, some 600, false, "Mon"⟩] 30) :=
  ⟨by norm_num, selectYmax_override [] [⟨0, 0, some 0, some 600, false, "Mon"⟩] 30 (by norm_num)⟩

/-- The ten-record sample of the spec: durations 10, 20, …, 100 minutes
(600 … 6000 seconds), all valid. -/
def sampleRows : List SolveRecord :=
  [⟨0, 0, some 0, some 600, false, "Mon"⟩,
   ⟨0, 1, some 1, some 1200, false, "Tue"⟩,
   ⟨0, 2, some 2, some 1800, false, "Wed"⟩,
   ⟨0, 3, some 3, some 2400, false, "Thu"⟩,
   ⟨0, 4, some 4, some 3000, false, "Fri"⟩,
   ⟨0, 5, some 5, some 3600, false, "Sat"⟩,
   ⟨0, 6, some 6, some 4200, false, "Sun"⟩,
   ⟨0, 7, some 7, some 4800, false, "Mon"⟩,
   ⟨0, 8, some 8, some 5400, false, "Tue"⟩,
   ⟨0, 9, some 9, some 6000, false, "Wed"⟩]

/-- C6: scale selection without an override is the 99th percentile of
`solve_time_secs` over the whole dataset (weekday labels are
irrelevant), in minutes; it yields a numeric value on every non-empty
filtered dataset; and on the ten-point sample 10, 20, …, 100 minutes it
evaluates to the interpolated value 99.1 minutes. -/
theorem quantile_scale_selection :
    (∀ (df : List SolveRecord) (f : String → String),
      selectYmax (df.map fun r => { r with weekday := f r.weekday }) 0 =
        selectYmax df 0) ∧
    (∀ rows : List SolveRecord, parse_data rows ≠ [] →
      (selectYmax (parse_data rows) 0).isSome = true) ∧
    selectYmax sampleRows 0 = some (991 / 10) := by
  refine ⟨?_, ?_, ?_⟩
  · intro df f
    have hdur : durationsOf (df.map fun r => { r with weekday := f r.weekday }) =
        durationsOf df := by
      unfold durationsOf
      rw [List.filterMap_map]
      rfl
    unfold selectYmax
    rw [hdur]
  · intro rows hne
    obtain ⟨r, hr⟩ := List.exists_mem_of_ne_nil _ hne
    have hk : keepRecord r = true := (List.mem_filter.mp hr).2
    obtain ⟨-, -, hdur⟩ := (keepRecord_iff r).mp hk
    obtain ⟨v, hv⟩ := Option.ne_none_iff_exists.mp hdur
    have hmem : v ∈ durationsOf (parse_data rows) :=
      List.mem_filterMap.mpr ⟨r, hr, hv.symm⟩
    have hne' : durationsOf (parse_data rows) ≠ [] := by
      intro h0
      rw [h0] at hmem
      exact absurd hmem (List.not_mem_nil v)
    obtain ⟨y, hy⟩ :=
      Option.isSome_iff_exists.mp (seriesQuantile_isSome _ (99 / 100) hne')
    unfold selectYmax
    rw [if_pos rfl, hy]
    rfl
  · have hdur : durationsOf sampleRows =
        [600, 1200, 1800, 2400, 3000, 3600, 4200, 4800, 5400, 6000] := by decide
    have hsort : List.insertionSort (· ≤ ·)
        ([600, 1200, 1800, 2400, 3000, 3600, 4200, 4800, 5400, 6000] : List ℚ) =
        [600, 1200, 1800, 2400, 3000, 3600, 4200, 4800, 5400, 6000] := by decide
    have hval : quantileAt
        ([600, 1200, 1800, 2400, 3000, 3600, 4200, 4800, 5400, 6000] : List ℚ)
        (99 / 100) = 5946 := by
      have hfloor : ⌊(99 / 100 : ℚ) *
          ((([600, 1200, 1800, 2400, 3000, 3600, 4200, 4800, 5400, 6000] :
            List ℚ).length : ℚ) - 1)⌋ = 8 := by
        norm_num
      have g8 : ([600, 1200, 1800, 2400, 3000, 3600, 4200, 4800, 5400, 6000] :
          List ℚ).getD (Int.toNat 8) 0 = 5400 := rfl
      have hmin : min (Int.toNat 8 + 1)
          (([600, 1200, 1800, 2400, 3000, 3600, 4200, 4800, 5400, 6000] :
            List ℚ).length - 1) = 9 := rfl
      have g9 : ([600, 1200, 1800, 2400, 3000, 3600, 4200, 4800, 5400, 6000] :
          List ℚ).getD 9 0 = 6000 := rfl
      unfold quantileAt
      rw [hfloor, hmin, g8, g9]
      norm_num
    unfold selectYmax
    rw [if_pos rfl, hdur]
    unfold seriesQuantile
    rw [hsort, if_neg (by norm_num), hval]
    norm_num

/-- Witness for the non-empty clause of the C6 theorem at the sample
dataset. -/
theorem quantile_scale_selection_witness :
    parse_data sampleRows ≠ [] ∧
      (selectYmax (parse_data sampleRows) 0).isSome = true :=
  ⟨by decide, quantile_scale_selection.2.1 sampleRows (by decide)⟩

/-- The expression `max(df["Solved datetime"])` (plot.py lines 111 and 139): Python's
builtin `max` over the column, which raises `ValueError` on an empty
dataframe — modelled as `none`. -/
def maxSolved (df : List SolveRecord) : Option Int :=
  (df.filterMap fun r => r.solved_unix).max?

/-- The cutoff `datetime.datetime(2021, 1, 1)` of plot.py line 135, as POSIX epoch
seconds. -/
def cutoff2021 : Int := 1609459200

/-- The number of distinct levels of the boolean hue column
`df["In 2021"] = df["Solved datetime"] > datetime(2021, 1, 1)` built by
`save_split_vln_plot` (plot.py line 135).  Seaborn's split violin plot
(`split=True`, line 136–137) raises `ValueError` unless there are
exactly two hue levels. -/
def splitHueCount (df : List SolveRecord) : Nat :=
  ((df.filterMap fun r => r.solved_unix).map fun t => decide (cutoff2021 < t)).dedup.length

/-- The three output artifacts of `generate` (plot.py lines 164–170), in
write order: the rolling-average chart at `out_file`, then the violin
chart, then the split violin chart. -/
inductive Artifact where
  | primary
  | violin
  | splitViolin
deriving DecidableEq, Repr

/-- The observable write/failure behaviour of `generate` (plot.py lines
155–170): which artifacts get written, and whether the run completes.
The failure points, in program order:
* if the computed ymax is `NaN` (empty quantile, no override),
  `save_plot` raises `ValueError` in `np.arange(0, ymax + 1, 5)`
  (line 90) before its `savefig`, so nothing is written;
* otherwise `save_plot` writes the primary chart (an empty dataframe
  plots seven empty lines without raising);
* `save_vln_plot` evaluates `max(df["Solved datetime"])` (line 111)
  before its `savefig`; on an empty dataframe Python's `max` raises
  `ValueError`, leaving only the primary chart written;
* otherwise the violin chart is written, and `save_split_vln_plot`
  builds the two-level hue for its split violin plot (lines 135–137):
  seaborn raises `ValueError` unless exactly two hue levels occur,
  leaving the primary and violin charts written;
* otherwise the split violin chart is written and the run succeeds. -/
def generateRun (rows : List SolveRecord) (ceiling : Int) : List Artifact × Bool :=
  match selectYmax (parse_data rows) ceiling with
  | none => ([], false)
  | some _ =>
      match maxSolved (parse_data rows) with
      | none => ([Artifact.primary], false)
      | some _ =>
          if splitHueCount (parse_data rows) = 2 then
            ([Artifact.primary, Artifact.violin, Artifact.splitViolin], true)
          else
            ([Artifact.primary, Artifact.violin], false)

/-- C4 (counterexample): running `generate` on an empty dataset with a
ceiling override writes the primary chart and then fails in the violin
stage — a failed run with a partial output artifact.  No non-empty
validation happens before the first write. -/
theorem generate_partial_output_counterexample :
    generateRun [] 30 = ([Artifact.primary], false) ∧
    ([Artifact.primary] : List Artifact) ≠ [] ∧
    ([Artifact.primary] : List Artifact) ≠
      [Artifact.primary, Artifact.violin, Artifact.splitViolin] := by
  refine ⟨by decide, by decide, by decide⟩

theorem maxSolved_parse_data_isSome (rows : List SolveRecord)
    (h : parse_data rows ≠ []) : ∃ m, maxSolved (parse_data rows) = some m := by
  obtain ⟨r, hr⟩ := List.exists_mem_of_ne_nil _ h
  have hk : keepRecord r = true := (List.mem_filter.mp hr).2
  obtain ⟨⟨s, hs, -⟩, -, -⟩ := (keepRecord_iff r).mp hk
  have hmem : s ∈ (parse_data rows).filterMap fun r => r.solved_unix :=
    List.mem_filterMap.mpr ⟨r, hr, hs⟩
  have hne : ((parse_data rows).filterMap fun r => r.solved_unix) ≠ [] := by
    intro h0
    rw [h0] at hmem
    exact absurd hmem (List.not_mem_nil s)
  unfold maxSolved
  rcases hm : ((parse_data rows).filterMap fun r => r.solved_unix).max? with _ | m
  · exact absurd (List.max?_eq_none_iff.mp hm) hne
  · exact ⟨m, hm⟩

theorem selectYmax_parse_data_isSome (rows : List SolveRecord) (c : Int)
    (h : parse_data rows ≠ []) : ∃ y, selectYmax (parse_data rows) c = some y := by
  by_cases hc : c = 0
  · subst hc
    obtain ⟨r, hr⟩ := List.exists_mem_of_ne_nil _ h
    have hk : keepRecord r = true := (List.mem_filter.mp hr).2
    obtain ⟨-, -, hdur⟩ := (keepRecord_iff r).mp hk
    obtain ⟨v, hv⟩ := Option.ne_none_iff_exists.mp hdur
    have hmem : v ∈ durationsOf (parse_data rows) :=
      List.mem_filterMap.mpr ⟨r, hr, hv.symm⟩
    have hne : durationsOf (parse_data rows) ≠ [] := by
      intro h0
      rw [h0] at hmem
      exact absurd hmem (List.not_mem_nil v)
    obtain ⟨y, hy⟩ :=
      Option.isSome_iff_exists.mp (seriesQuantile_isSome _ (99 / 100) hne)
    refine ⟨y / 60, ?_⟩
    unfold selectYmax
    rw [if_pos rfl, hy]
    rfl
  · exact ⟨(c : ℚ), by unfold selectYmax; rw [if_neg hc]⟩

theorem selectYmax_empty_zero : selectYmax [] 0 = none := rfl

/-- C4 (amended): the artifacts a run writes are exactly those whose
write step precedes the first failure, so a failed run can leave
partial output.  Concretely: with an empty filtered dataset and no
override nothing is written (the NaN ymax aborts the first chart); with
an empty filtered dataset and an override the primary chart alone is
written; with a non-empty dataset whose `In 2021` hue does not take
exactly two values the primary and violin charts are written and the
split-violin stage fails; otherwise all three charts are written and
the run succeeds. -/
theorem generateRun_cases (rows : List SolveRecord) (c : Int) :
    (parse_data rows = [] → c = 0 → generateRun rows c = ([], false)) ∧
    (parse_data rows = [] → c ≠ 0 →
      generateRun rows c = ([Artifact.primary], false)) ∧
    (parse_data rows ≠ [] → splitHueCount (parse_data rows) ≠ 2 →
      generateRun rows c = ([Artifact.primary, Artifact.violin], false)) ∧
    (parse_data rows ≠ [] → splitHueCount (parse_data rows) = 2 →
      generateRun rows c =
        ([Artifact.primary, Artifact.violin, Artifact.splitViolin], true)) := by
  refine ⟨?_, ?_, ?_, ?_⟩
  · intro hnil hc
    subst hc
    unfold generateRun
    rw [hnil, selectYmax_empty_zero]
  · intro hnil hc
    unfold generateRun
    rw [hnil]
    have h1 : selectYmax [] c = some (c : ℚ) := by
      unfold selectYmax
      rw [if_neg hc]
    rw [h1]
    rfl
  · intro hne hhue
    obtain ⟨y, hy⟩ := selectYmax_parse_data_isSome rows c hne
    obtain ⟨m, hm⟩ := maxSolved_parse_data_isSome rows hne
    unfold generateRun
    rw [hy, hm, if_neg hhue]
  · intro hne hhue
    obtain ⟨y, hy⟩ := selectYmax_parse_data_isSome rows c hne
    obtain ⟨m, hm⟩ := maxSolved_parse_data_isSome rows hne
    unfold generateRun
    rw [hy, hm, if_pos hhue]

/-- Two valid records, one solved before 2021-01-01 and one after. -/
def straddleRows : List SolveRecord :=
  [⟨0, 0, some 0, some 600, false, "Mon"⟩,
   ⟨0, 1700000000, some 1700000000, some 900, false, "Tue"⟩]

/-- Witness for the amended C4 theorem: a dataset straddling the 2021
cutoff makes the whole pipeline succeed with all three artifacts. -/
theorem generateRun_cases_witness :
    parse_data straddleRows ≠ [] ∧
    splitHueCount (parse_data straddleRows) = 2 ∧
    generateRun straddleRows 0 =
      ([Artifact.primary, Artifact.violin, Artifact.splitViolin], true) :=
  ⟨by decide, by decide,
    (generateRun_cases straddleRows 0).2.2.2 (by decide) (by decide)⟩

/-- Outcome of binding a Python call. -/
inductive PyCallOutcome where
  | ok
  | typeError
deriving DecidableEq, Repr

/-- Binding of a plain positional Python call: a call with `given`
positional arguments to a function with `total` parameters, the last
`defaults` of which have default values, binds iff
`total - defaults ≤ given ≤ total`; otherwise the interpreter raises
`TypeError` before the body runs. -/
def bindPositional (total defaults given : Nat) : PyCallOutcome :=
  if total - defaults ≤ given ∧ given ≤ total then PyCallOutcome.ok
  else PyCallOutcome.typeError

/-- The function `plot.generate` (plot.py line 155) has three parameters — `in_file`,
`out_file`, `ceiling` — none of which has a default. -/
def generateTotalParams : Nat := 3

/-- Number of `plot.generate` parameters with default values: zero. -/
def generateDefaultParams : Nat := 0

/-- The handler helper `cloud_run.generate_plot` (cloud_run.py lines 60–61) calls
`plot.generate(LOCAL_CSV_FILENAME, LOCAL_PLOT_FILENAME)` with exactly
two positional arguments. -/
def generatePlotCallArgs : Nat := 2

/-- C5: the call from `cloud_run.generate_plot` into `plot.generate`
passes two positional arguments to a function requiring three, so the
binding raises `TypeError` on every invocation (the call site is fixed:
it always passes these two constants), and the HTTP route's
plot-generation step can never reach the body of `generate`. -/
theorem cloud_run_generate_call_type_error :
    bindPositional generateTotalParams generateDefaultParams generatePlotCallArgs =
      PyCallOutcome.typeError ∧
    generatePlotCallArgs < generateTotalParams - generateDefaultParams := by
  refine ⟨by decide, by decide⟩

/-- A dataframe cell: numeric, boolean, timestamp, or null (NaN/NaT). -/
inductive Cell where
  | num (q : ℚ)
  | flag (b : Bool)
  | time (t : Int)
  | null
deriving DecidableEq, Repr

/-- A dataframe viewed as an ordered column store: column names paired
with their columns of cells.  This is the representation on which the
column assignments of `save_vln_plot` and `save_split_vln_plot` act. -/
abbrev Frame : Type := List (String × List Cell)

/-- Column lookup `df[name]`.  Every lookup performed by the pipeline is
on a column that exists; a missing name yields the empty column. -/
def getCol (df : Frame) (name : String) : List Cell :=
  match List.find? (fun c => c.1 == name) df with
  | some c => c.2
  | none => []

/-- pandas column assignment `df[name] = vals`: mutates the dataframe in
place, overwriting the column if the name exists and appending a new
column at the end otherwise. -/
def setCol (df : Frame) (name : String) (vals : List Cell) : Frame :=
  if List.any df (fun c => c.1 == name) then
    List.map (fun c => if c.1 == name then (name, vals) else c) df
  else df ++ [(name, vals)]

/-- Elementwise division of a column by a constant,
`df["solve_time_secs"] / 60.0` (non-numeric cells propagate as null). -/
def divCol (vals : List Cell) (k : ℚ) : List Cell :=
  vals.map fun c =>
    match c with
    | Cell.num q => Cell.num (q / k)
    | _ => Cell.null

/-- The in-place dataframe mutation performed by `save_vln_plot`
(plot.py line 108): `df["solve_time_m"] = df["solve_time_secs"] / 60.0`
adds a minutes column to the dataframe passed in. -/
def vlnMutate (df : Frame) : Frame :=
  setCol df "solve_time_m" (divCol (getCol df "solve_time_secs") 60)

/-- The in-place dataframe mutations performed by `save_split_vln_plot`
(plot.py lines 133–135): the minutes column plus the boolean hue column
`df["In 2021"] = df["Solved datetime"] > datetime(2021, 1, 1)` (a null
timestamp compares false). -/
def splitMutate (df : Frame) : Frame :=
  setCol (vlnMutate df) "In 2021"
    ((getCol (vlnMutate df) "Solved datetime").map fun c =>
      match c with
      | Cell.time t => Cell.flag (decide (cutoff2021 < t))
      | _ => Cell.flag false)

/-- A two-column dataframe as it reaches the violin-plot stage. -/
def sampleFrame : Frame :=
  [("solve_time_secs", [Cell.num 600]), ("Solved datetime", [Cell.time 0])]

/-- C10 (counterexample): `save_vln_plot` mutates the dataframe passed
to it — after the call the dataset has gained a `solve_time_m` column
that it did not have before, so the filtered dataset is not immutable
under chart composition. -/
theorem frame_mutation_counterexample :
    List.map Prod.fst (vlnMutate sampleFrame) =
      ["solve_time_secs", "Solved datetime", "solve_time_m"] ∧
    List.map Prod.fst sampleFrame = ["solve_time_secs", "Solved datetime"] ∧
    (["solve_time_secs", "Solved datetime", "solve_time_m"] : List String) ≠
      ["solve_time_secs", "Solved datetime"] := by
  refine ⟨by decide, by decide, by decide⟩

/-- C10 (amended): chart composition does mutate the dataframe, in a
limited way: on a dataframe not already carrying the derived columns,
`save_vln_plot` appends exactly the `solve_time_m` column and
`save_split_vln_plot` appends `solve_time_m` and `In 2021`; every other
column keeps its name, position and cell values.  (Aggregation and
scale selection are pure reads and are modelled as such.) -/
theorem frame_mutation_amended (df : Frame)
    (h1 : List.any df (fun c => c.1 == "solve_time_m") = false)
    (h2 : List.any df (fun c => c.1 == "In 2021") = false) :
    List.map Prod.fst (vlnMutate df) =
      List.map Prod.fst df ++ ["solve_time_m"] ∧
    List.map Prod.fst (splitMutate df) =
      List.map Prod.fst df ++ ["solve_time_m", "In 2021"] ∧
    (∀ name, name ≠ "solve_time_m" → getCol (vlnMutate df) name = getCol df name) ∧
    (∀ name, name ≠ "solve_time_m" → name ≠ "In 2021" →
      getCol (splitMutate df) name = getCol df name) := by
  have hvln : vlnMutate df = df ++ [("solve_time_m",
      divCol (getCol df "solve_time_secs") 60)] := by
    unfold vlnMutate setCol
    rw [if_neg (by rw [h1]; exact Bool.false_ne_true)]
  have hany2 : List.any (vlnMutate df) (fun c => c.1 == "In 2021") = false := by
    rw [hvln, List.any_append, h2]
    simp
  have hsplit : splitMutate df = vlnMutate df ++ [("In 2021",
      (getCol (vlnMutate df) "Solved datetime").map fun c =>
        match c with
        | Cell.time t => Cell.flag (decide (cutoff2021 < t))
        | _ => Cell.flag false)] := by
    unfold splitMutate setCol
    rw [if_neg (by rw [hany2]; exact Bool.false_ne_true)]
  have hget : ∀ (l : Frame) (extra : String × List Cell) (name : String),
      extra.1 ≠ name → getCol (l ++ [extra]) name = getCol l name := by
    intro l extra name hne
    unfold getCol
    rw [List.find?_append]
    have : List.find? (fun c => c.1 == name) [extra] = none := by
      rw [List.find?_eq_none]
      intro a ha
      rw [List.mem_singleton] at ha
      subst ha
      simpa using hne
    rw [this, Option.or_none]
  refine ⟨?_, ?_, ?_, ?_⟩
  · rw [hvln, List.map_append]
    rfl
  · rw [hsplit, hvln, List.map_append, List.map_append, List.append_assoc]
    rfl
  · intro name hname
    rw [hvln]
    exact hget df _ name (fun h => hname h.symm)
  · intro name hname hname2
    rw [hsplit, hvln]
    rw [hget _ _ name (fun h => hname2 h.symm)]
    exact hget df _ name (fun h => hname h.symm)

/-- Witness for the amended C10 theorem at the sample dataframe. -/
theorem frame_mutation_amended_witness :
    List.any sampleFrame (fun c => c.1 == "solve_time_m") = false ∧
    List.any sampleFrame (fun c => c.1 == "In 2021") = false ∧
    List.map Prod.fst (splitMutate sampleFrame) =
      List.map Prod.fst sampleFrame ++ ["solve_time_m", "In 2021"] :=
  ⟨by decide, by decide,
    (frame_mutation_amended sampleFrame (by decide) (by decide)).2.1⟩

end Crossword
